import Mathlib

/-!
Verification of the Kabot-1 telemetry pipeline (shallow embedding).

The Python sources are embedded as executable Lean definitions:
file contents are lists of lines (strings without the trailing newline),
numeric values are rationals, and the stateful loops are explicit
state-passing functions over lists of per-cycle inputs.
-/

namespace Kabot

/-! ## Generic string and list helpers (semantics of the Python operations used) -/

/-- Whether the text starts with the pattern (both as character lists). -/
def charsStartWith : List Char → List Char → Bool
  | [], _ => true
  | _ :: _, [] => false
  | p :: ps, c :: cs => p == c && charsStartWith ps cs

/-- Whether the pattern occurs anywhere in the text. -/
def charsContain (pat : List Char) : List Char → Bool
  | [] => charsStartWith pat []
  | c :: cs => charsStartWith pat (c :: cs) || charsContain pat cs

/-- Semantics of the Python substring test `pat in s`. -/
def containsSub (s pat : String) : Bool :=
  charsContain pat.data s.data

/-- Split a character list at every occurrence of the separator character;
like Python `split`, adjacent separators and separators at either end
produce empty parts. -/
def splitChar (sep : Char) : List Char → List (List Char)
  | [] => [[]]
  | c :: cs =>
    if c == sep then [] :: splitChar sep cs
    else
      match splitChar sep cs with
      | [] => [[c]]
      | p :: ps => (c :: p) :: ps

/-- Semantics of `collections.deque(f, maxlen := n)` over the lines of a file:
keep the last `n` lines (all of them when there are fewer than `n`). -/
def lastN (n : Nat) (xs : List α) : List α :=
  xs.drop (xs.length - n)

/-! ## Timestamp and float parsing

`datetime.strptime(s, "%Y-%m-%d %H:%M:%S")` and Python's `float` applied to the
simple decimal literals this code base writes. -/

/-- A wall-clock timestamp at second resolution, as recovered by
`datetime.strptime` with format `%Y-%m-%d %H:%M:%S`. -/
structure DateTime where
  year : Nat
  month : Nat
  day : Nat
  hour : Nat
  minute : Nat
  second : Nat
deriving DecidableEq

/-- Whether every character of the list is a decimal digit. -/
def charsAreDigits (cs : List Char) : Bool :=
  cs.all (fun c => c.isDigit)

/-- The numeric value of a list of decimal digits. -/
def charsToNat (cs : List Char) : Nat :=
  cs.foldl (fun a c => a * 10 + (c.toNat - 48)) 0

/-- Parse a nonempty all-digit field and require it to be within `strptime`'s
bounds for the corresponding format directive. -/
def parseBoundedNat (cs : List Char) (lo hi : Nat) : Option Nat :=
  if cs ≠ [] ∧ charsAreDigits cs then
    let n := charsToNat cs
    if lo ≤ n ∧ n ≤ hi then some n else none
  else none

/-- `datetime.strptime(s, "%Y-%m-%d %H:%M:%S")` as a partial function: a date
part and a time part separated by one space, with in-range numeric fields.
Any other shape (in particular a bare `HH:MM:SS` string) fails. -/
def parseTimestampYmd (s : String) : Option DateTime :=
  match splitChar ' ' s.data with
  | [d, t] =>
    match splitChar '-' d, splitChar ':' t with
    | [ys, mos, das], [hs, mis, ses] => do
      let y ← parseBoundedNat ys 1 9999
      let mo ← parseBoundedNat mos 1 12
      let da ← parseBoundedNat das 1 31
      let h ← parseBoundedNat hs 0 23
      let mi ← parseBoundedNat mis 0 59
      let se ← parseBoundedNat ses 0 61
      some ⟨y, mo, da, h, mi, se⟩
    | _, _ => none
  | _ => none

/-- An exact decimal number `mant / 10 ^ scale`, the value a parsed decimal
literal denotes (the code's binary floats are idealized as exact decimals). -/
structure DecNum where
  mant : Int
  scale : Nat
deriving DecidableEq

/-- The rational value of an exact decimal. -/
def DecNum.toRat (d : DecNum) : ℚ :=
  mkRat d.mant (10 ^ d.scale)

/-- Python `float(s)` on the simple decimal literals written by the loggers:
an optional sign, an integer part and an optional fractional part, at least
one digit overall. The denoted value is recovered exactly. -/
def parseFloat (s : String) : Option DecNum :=
  let core : List Char → Option DecNum := fun t =>
    match splitChar '.' t with
    | [ip] =>
      if ip ≠ [] ∧ charsAreDigits ip then some ⟨(charsToNat ip : Int), 0⟩ else none
    | [ip, fp] =>
      if (ip ≠ [] ∨ fp ≠ []) ∧ charsAreDigits ip ∧ charsAreDigits fp then
        some ⟨(charsToNat ip * 10 ^ fp.length + charsToNat fp : Int), fp.length⟩
      else none
    | _ => none
  match s.data with
  | [] => none
  | c :: cs =>
    if c == '-' then (core cs).map (fun d => ⟨-d.mant, d.scale⟩)
    else if c == '+' then core cs
    else core (c :: cs)

/-! ## The chart reader (`generate_chart` in `src/dht_logger.py` and the
parsing loop of `src/plotter/dht_plotter.py`) -/

/-- `MAX_CHART_POINTS` from `src/dht_logger.py`. -/
def MAX_CHART_POINTS : Nat := 120

/-- `MOVING_AVG_POINTS` from `src/dht_logger.py`. -/
def MOVING_AVG_POINTS : Nat := 5

/-- One line of the DHT log parsed as in the readers:
`line.strip().split(',')` into exactly three fields, a `strptime` timestamp
and two `float` values; any failure skips the line. -/
def parseRecordLine (line : String) : Option (DateTime × DecNum × DecNum) :=
  match splitChar ',' line.data with
  | [ts, t, h] => do
    let d ← parseTimestampYmd (String.mk ts)
    let tv ← parseFloat (String.mk t)
    let hv ← parseFloat (String.mk h)
    some (d, tv, hv)
  | _ => none

/-- The header-skip step of both readers: drop the first of the retained lines
exactly when it contains the substring `"timestamp"`. -/
def stripHeaderIfPresent (lines : List String) : List String :=
  match lines with
  | [] => []
  | l :: rest => if containsSub l "timestamp" then rest else l :: rest

/-- The line-parsing pipeline of `generate_chart` in `src/dht_logger.py`:
keep the last `MAX_CHART_POINTS + 1` lines, conditionally skip a header,
parse each remaining line, skipping malformed ones. -/
def chartParse (fileLines : List String) : List (DateTime × DecNum × DecNum) :=
  (stripHeaderIfPresent (lastN (MAX_CHART_POINTS + 1) fileLines)).filterMap parseRecordLine

/-- `np.convolve(xs, np.ones(w)/w, mode := valid)`: the average of each window
of `w` consecutive points (for `1 ≤ w ≤ xs.length` there are
`xs.length - w + 1` of them). -/
def movingAvg (w : Nat) : List ℚ → List ℚ
  | [] => []
  | x :: t =>
    if w ≤ (x :: t).length then ((x :: t).take w).sum / (w : ℚ) :: movingAvg w t
    else []

/-- The series `generate_chart` builds: the raw bounded series and, per field,
the moving-average series computed only when at least `MOVING_AVG_POINTS`
raw points are available. -/
structure ChartSeries where
  raw : List (DateTime × DecNum × DecNum)
  tempMA : Option (List ℚ)
  humMA : Option (List ℚ)
deriving DecidableEq

/-- The data part of `generate_chart` (`src/dht_logger.py`): parse the bounded
tail of the file, then smooth each numeric field when enough points exist. -/
def generateChartSeries (fileLines : List String) : ChartSeries :=
  let parsed := chartParse fileLines
  let temps := parsed.map (fun p => p.2.1.toRat)
  let hums := parsed.map (fun p => p.2.2.toRat)
  { raw := parsed
    tempMA := if MOVING_AVG_POINTS ≤ temps.length then some (movingAvg MOVING_AVG_POINTS temps) else none
    humMA := if MOVING_AVG_POINTS ≤ hums.length then some (movingAvg MOVING_AVG_POINTS hums) else none }

/-- The DHT log header line written by `ensure`. -/
def dhtHeader : String := "timestamp,temperature,humidity"

/-- A well-formed full-timestamp record line, used as the repeated record of
the 200-record scenario log. -/
def sampleRec : String := "2024-01-01 10:00:00,23.0,45.0"

/-- The scenario log: header plus 200 well-formed records. -/
def log200 : List String := dhtHeader :: List.replicate 200 sampleRec

/-- The line-parsing pipeline of `generate_chart` in `src/plotter/dht_plotter.py`:
read all lines, skip the header when its first line contains `"timestamp"`,
parse each remaining line with `strptime` format `%Y-%m-%d %H:%M:%S` and
`float`, skipping malformed lines. -/
def plotterParse (fileLines : List String) : List (DateTime × DecNum × DecNum) :=
  (stripHeaderIfPresent fileLines).filterMap parseRecordLine

/-! ## The live-state store (`write_live_data` in `src/logger/dht_logger.py`) -/

/-- A JSON scalar as stored in `LATEST_SENSOR_DATA.json`. -/
inductive Val where
  | str : String → Val
  | num : ℚ → Val
deriving DecidableEq

/-- The live-state document: an ordered mapping from field name to value
(Python `dict` insertion order). -/
def LiveDoc : Type := List (String × Val)

instance : DecidableEq LiveDoc := by
  unfold LiveDoc
  infer_instance

/-- `d[k] = v` on a Python dict: replace the value of an existing key in
place, else append the new binding. -/
def setKey (k : String) (v : Val) : LiveDoc → LiveDoc
  | [] => [(k, v)]
  | (k2, v2) :: rest => if k2 = k then (k, v) :: rest else (k2, v2) :: setKey k v rest

/-- Key lookup in the live-state document. -/
def lookupVal (k : String) : LiveDoc → Option Val
  | [] => none
  | (k2, v2) :: rest => if k2 = k then some v2 else lookupVal k rest

/-- `full_data.update(kvs)`: set every given binding in order. -/
def updateDict (d : LiveDoc) (kvs : List (String × Val)) : LiveDoc :=
  kvs.foldl (fun acc kv => setKey kv.1 kv.2 acc) d

/-- The `data_point` dictionary the DHT worker passes to `write_live_data`. -/
structure DhtPoint where
  timestamp : String
  temp : ℚ
  hum : ℚ
deriving DecidableEq

/-- The field bindings `write_live_data` overlays:
`{"timestamp": ..., "temp": ..., "hum": ...}`. -/
def dhtFields (p : DhtPoint) : List (String × Val) :=
  [("timestamp", Val.str p.timestamp), ("temp", Val.num p.temp), ("hum", Val.num p.hum)]

/-- `write_live_data` (`src/logger/dht_logger.py`): read the current document
(absent or unparseable reads start from the empty mapping), overlay the three
DHT fields, and return the merged document that is then written back whole. -/
def writeLiveData (prior : Option LiveDoc) (p : DhtPoint) : LiveDoc :=
  updateDict (prior.getD []) (dhtFields p)

/-- What a concurrent reader of the live-state path can observe. -/
inductive FileView where
  | absent : FileView
  | truncated : FileView
  | doc : LiveDoc → FileView
deriving DecidableEq

/-- The sequence of states visible at the live-state path during one
`write_live_data` call on an existing document: the write is
`open(LIVE_DATA_FILE, mode w)` followed by `json.dump`, and opening with
mode `w` truncates the visible file in place before the new content is
written, so the truncated (zero-length, not a syntactically valid document)
state is observable between the old and the new content. -/
def writeLiveDataTrace (prior : LiveDoc) (p : DhtPoint) : List FileView :=
  [FileView.doc prior, FileView.truncated, FileView.doc (writeLiveData (some prior) p)]

/-! ## The DHT sampling loop (`main_loop` in `src/logger/dht_logger.py`) -/

/-- A time of day, as formatted by `datetime.now().strftime("%H:%M:%S")`. -/
structure HMS where
  hour : Nat
  minute : Nat
  second : Nat
deriving DecidableEq

/-- Two-digit zero padding, as in `strftime`. -/
def fmt2 (n : Nat) : String :=
  if n < 10 then "0" ++ toString n else toString n

/-- `strftime("%H:%M:%S")`. -/
def fmtHMS (t : HMS) : String :=
  fmt2 t.hour ++ ":" ++ fmt2 t.minute ++ ":" ++ fmt2 t.second

/-- `⌊q * 10⌋` computed on the numerator and denominator directly (the
denominator is positive, so flooring division gives the floor exactly). -/
def ratTenths (q : ℚ) : Int :=
  Int.fdiv (q.num * 10) (q.den : Int)

/-- Python `f"{x:.1f}"` for the nonnegative exact-tenth values the DHT11
produces: the integer count of tenths rendered with one decimal digit. -/
def fmt1q (q : ℚ) : String :=
  let t := (ratTenths q).toNat
  toString (t / 10) ++ "." ++ toString (t % 10)

/-- Python `round(x, 1)` for the nonnegative exact-tenth values the DHT11
produces (on such values rounding is the identity on the tenths grid). -/
def round1 (q : ℚ) : ℚ :=
  mkRat (ratTenths q) 10

/-- The record line `f"{timestamp},{temperature:.1f},{humidity:.1f}"` written
by `main_loop` in `src/logger/dht_logger.py`; the timestamp is `%H:%M:%S`
only ("to save space in log"). -/
def mkDhtRecord (now : HMS) (temp hum : ℚ) : String :=
  fmtHMS now ++ "," ++ fmt1q temp ++ "," ++ fmt1q hum

/-- The environment of one iteration of the sampling loop: the wall clock,
the sensor acquisition (`None` when the instrument is unavailable, the pair
humidity, temperature otherwise), and whether opening/writing the primary
log for append succeeds this cycle. -/
structure CycleInput where
  now : HMS
  reading : Option (ℚ × ℚ)
  appendOk : Bool

/-- The worker's observable state: the primary log's lines and the live-state
document (`none` while the live file has not been created yet). -/
structure LoopState where
  log : List String
  live : Option LiveDoc
deriving DecidableEq

/-- One iteration of `main_loop` (`src/logger/dht_logger.py`): a null reading
is skipped silently; an out-of-envelope humidity (outside `[20, 90]`) is
rejected with no record and no live update; a valid reading appends one
record and then merges the rounded point into the live store. A failure of
the append raises (`Except.error`), and nothing is written that cycle. -/
def runCycle (s : LoopState) (c : CycleInput) : Except Unit LoopState :=
  match c.reading with
  | none => Except.ok s
  | some (hum, temp) =>
    if 20 ≤ hum ∧ hum ≤ 90 then
      if c.appendOk then
        let line := mkDhtRecord c.now temp hum
        let pt : DhtPoint := ⟨fmtHMS c.now, round1 temp, round1 hum⟩
        Except.ok { log := s.log ++ [line], live := some (writeLiveData s.live pt) }
      else Except.error ()
    else Except.ok s

/-- The sampling loop over a finite schedule of cycle inputs. The whole
`while True` body sits inside one `try` whose generic `except Exception`
handler is outside the loop, so the first cycle whose append raises ends the
loop: the result records the state reached and whether the loop was
terminated by such an exception (`true`) or ran the whole schedule (`false`). -/
def mainLoop (s : LoopState) : List CycleInput → LoopState × Bool
  | [] => (s, false)
  | c :: cs =>
    match runCycle s c with
    | Except.ok s2 => mainLoop s2 cs
    | Except.error _ => (s, true)

/-- The worker state right after `main` ensured the header. -/
def dhtInit : LoopState := { log := [dhtHeader], live := none }

/-! ## The MPU-6050 append discipline (`main_loop` in
`src/logger/mpu6050_logger.py`) -/

/-- The two files the MPU worker touches: the primary log's lines and the
backup file's lines (`none` until the first backup copy). -/
structure MpuState where
  primary : List String
  backup : Option (List String)
deriving DecidableEq

/-- Step 1 of each iteration: `shutil.copyfile(DATA_FILE, DATA_BACKUP_FILE)`
(the primary exists after `main` created the header, so the guard holds). -/
def mpuBackupStep (s : MpuState) : MpuState :=
  { s with backup := some s.primary }

/-- Step 2 of each iteration: open the primary in append mode and write one
newline-terminated record; existing bytes are never rewritten. -/
def mpuAppendStep (s : MpuState) (record : String) : MpuState :=
  { s with primary := s.primary ++ [record] }

/-- One full iteration: backup, then append. -/
def mpuAppend (s : MpuState) (record : String) : MpuState :=
  mpuAppendStep (mpuBackupStep s) record

/-- The loop over a finite sequence of records. -/
def mpuRun (s : MpuState) : List String → MpuState
  | [] => s
  | r :: rs => mpuRun (mpuAppend s r) rs

/-- Every observation point of the run: the state before each iteration, the
state between the backup copy and the append, and the final state. -/
def mpuRunTrace (s : MpuState) : List String → List MpuState
  | [] => [s]
  | r :: rs => s :: mpuBackupStep s :: mpuRunTrace (mpuAppend s r) rs

/-- The MPU header line written by `main`. -/
def mpuHeader : String := "timestamp,accel_x,accel_y,accel_z,gyro_x,gyro_y,gyro_z"

/-- The state right after `main` ensured the header (backup not yet created). -/
def mpuInit : MpuState := { primary := [mpuHeader], backup := none }

/-- `b` is an initial segment of `p`: the file `p` extends the file `b`
without rewriting any existing line ("`b` is never newer than `p`"). -/
def initSeg (b p : List String) : Prop :=
  ∃ t, b ++ t = p

/-! ## The supervisor (`main.py`) -/

/-- The possible outcomes the environment gives one `subprocess.Popen` call:
success, a generic launch failure (`except Exception`), or the interpreter
itself missing (`except FileNotFoundError`). -/
inductive LaunchOutcome where
  | ok : LaunchOutcome
  | failOther : LaunchOutcome
  | interpreterMissing : LaunchOutcome
deriving DecidableEq

/-- One entry of `PROCESSES` together with the environment's response to
launching it. -/
structure LaunchSpec where
  name : String
  outcome : LaunchOutcome
deriving DecidableEq

/-- `launch_processes` (`main.py`): attempt each spec in order; a generic
failure is reported and the loop continues with the next spec; a missing
interpreter is reported and `break`s, aborting all remaining launches.
Returns the handles collected and the names attempted, both in order. -/
def launchAll : List LaunchSpec → List String × List String
  | [] => ([], [])
  | sp :: rest =>
    match sp.outcome with
    | LaunchOutcome.interpreterMissing => ([], [sp.name])
    | LaunchOutcome.failOther =>
      let p := launchAll rest
      (p.1, sp.name :: p.2)
    | LaunchOutcome.ok =>
      let p := launchAll rest
      (sp.name :: p.1, sp.name :: p.2)

/-- Names visible at module scope in `main.py` (imports, configuration and
the two function definitions). -/
def moduleGlobals : List String :=
  ["subprocess", "time", "os", "PROCESSES", "launch_processes", "monitor_processes"]

/-- Local names of `launch_processes` in `main.py`; in particular `DEVNULL`
is bound here, inside this function, and nowhere else. -/
def launchLocals : List String :=
  ["running_processes", "DEVNULL", "name", "script_path", "command", "process", "e"]

/-- Local names of `monitor_processes` in `main.py`. -/
def monitorLocals : List String :=
  ["processes", "name", "proc", "e"]

/-- Name resolution inside `monitor_processes`: its own locals, then module
globals. `monitor_processes` is defined at module level (it is not nested
inside `launch_processes`), so the locals of `launch_processes` are not an
enclosing scope for it. -/
def monitorVisible : List String := monitorLocals ++ moduleGlobals

/-- The runtime error raised when a name lookup fails. -/
inductive PyError where
  | nameError : String → PyError
deriving DecidableEq

/-- A monitored process handle: its configured name and whether `poll()`
still returns `None` (alive). -/
structure Handle where
  name : String
  alive : Bool
deriving DecidableEq

/-- The `except KeyboardInterrupt` path of `monitor_processes` (`main.py`):
for each handle still alive, call `terminate()` (graceful SIGTERM, never
`kill()`) and report it stopped; dead handles are skipped. Then evaluate
`DEVNULL.close()`, which first resolves the name `DEVNULL` in the scopes
visible to `monitor_processes` and raises `NameError` if it is absent.
Returns the names reported stopped and the error the close line raises, if
any (`none` means the shutdown sequence completed without raising). -/
def shutdownRun (hs : List Handle) : List String × Option PyError :=
  let stopped := (hs.filter (fun h => h.alive)).map (fun h => h.name)
  (stopped,
    if "DEVNULL" ∈ monitorVisible then none
    else some (PyError.nameError "DEVNULL"))

/-- A handle as seen by the monitoring loop: dead from poll cycle
`deadFrom` onward (`none` = alive for the whole mission). A terminated
process stays terminated, so `poll()` reports an exit code at every cycle
from `deadFrom` on. -/
structure MonHandle where
  name : String
  deadFrom : Option Nat
deriving DecidableEq

/-- Whether `proc.poll()` reports termination at the given cycle. -/
def pollDead (h : MonHandle) (cycle : Nat) : Bool :=
  match h.deadFrom with
  | none => false
  | some t => decide (t ≤ cycle)

/-- The alerts one iteration of the `while True` monitoring loop prints: one
`[ALERT] ... terminated unexpectedly` line per handle whose `poll()` is not
`None`. The handle list is never mutated and no deduplication state exists. -/
def alertsAt (hs : List MonHandle) (cycle : Nat) : List String :=
  (hs.filter (fun h => pollDead h cycle)).map (fun h => h.name)

/-- The alert output of the first `n` poll cycles: every cycle re-scans the
same unchanged handle list. -/
def monitorTrace (hs : List MonHandle) (n : Nat) : List (List String) :=
  (List.range n).map (alertsAt hs)

/-! ## Concrete inputs used by the per-claim theorems -/

/-- The parse of `sampleRec`. -/
def sampleVal : DateTime × DecNum × DecNum := (⟨2024, 1, 1, 10, 0, 0⟩, ⟨230, 1⟩, ⟨450, 1⟩)

/-- A live-state document previously written by another source. -/
def priorC2 : LiveDoc := [("accel_x", Val.num 1)]

/-- A DHT data point. -/
def pC2 : DhtPoint := ⟨"10:00:05", 23, 45⟩

/-- A live-state document holding another contributor's last-update
timestamp under the store's single timestamp key. -/
def priorC3 : LiveDoc := [("timestamp", Val.str "08:00:00"), ("accel_x", Val.num 1)]

/-- A later DHT data point. -/
def pC3 : DhtPoint := ⟨"10:00:05", 23, 45⟩

/-- A cycle with a valid reading whose append succeeds. -/
def cGood1 : CycleInput := ⟨⟨10, 0, 0⟩, some (45, 23), true⟩

/-- A cycle with a valid reading whose append raises. -/
def cFail : CycleInput := ⟨⟨10, 0, 10⟩, some (50, 24), false⟩

/-- A later cycle with a valid reading whose append would succeed. -/
def cGood2 : CycleInput := ⟨⟨10, 0, 20⟩, some (55, 25), true⟩

/-- A unit whose launch fails for a reason other than a missing interpreter. -/
def specA : LaunchSpec := ⟨"DHT Logger", LaunchOutcome.failOther⟩

/-- A unit whose launch succeeds. -/
def specB : LaunchSpec := ⟨"MPU Logger", LaunchOutcome.ok⟩

/-- A unit whose launch fails because the interpreter is missing. -/
def specC : LaunchSpec := ⟨"Sound Logger", LaunchOutcome.interpreterMissing⟩

/-- Handles at interrupt time: two still alive, one already dead. -/
def handlesC9 : List Handle := [⟨"DHT Logger", true⟩, ⟨"MPU Logger", false⟩, ⟨"Web Server", true⟩]

/-- Monitored handles: one dies at poll cycle 1, one never dies. -/
def monHandlesC10 : List MonHandle := [⟨"Sound Logger", some 1⟩, ⟨"DHT Logger", none⟩]

/-- The record the DHT worker writes at 12:34:56 for temperature 23 and
humidity 45. -/
def writtenRecC6 : String := mkDhtRecord ⟨12, 34, 56⟩ 23 45

/-! ## Helper lemmas -/

/-- `filterMap` of a constant successfully-parsed element over `replicate`. -/
theorem filterMap_replicate_some {α β : Type} (f : α → Option β) (x : α) (y : β)
    (hf : f x = some y) : ∀ n, (List.replicate n x).filterMap f = List.replicate n y := by
  intro n
  induction n with
  | zero => rfl
  | succ k ih => simp [List.replicate_succ, List.filterMap_cons, hf, ih]

/-- Length of the valid-mode moving average. -/
theorem movingAvg_length (w : Nat) (hw : 1 ≤ w) :
    ∀ xs : List ℚ, (movingAvg w xs).length = xs.length + 1 - w := by
  intro xs
  induction xs with
  | nil => simp [movingAvg]; omega
  | cons x t ih =>
    rw [show movingAvg w (x :: t)
        = if w ≤ (x :: t).length then ((x :: t).take w).sum / (w : ℚ) :: movingAvg w t else []
      from rfl]
    by_cases h : w ≤ (x :: t).length
    · rw [if_pos h, List.length_cons, ih]
      simp only [List.length_cons] at h ⊢
      omega
    · rw [if_neg h]
      simp only [List.length_cons] at h
      simp only [List.length_nil, List.length_cons]
      omega

/-- Setting one key leaves the lookup of every other key unchanged. -/
theorem lookupVal_setKey_ne {k k2 : String} (hne : k ≠ k2) (v : Val) :
    ∀ d : LiveDoc, lookupVal k (setKey k2 v d) = lookupVal k d := by
  intro d
  have h2 : ¬ (k2 = k) := fun h => hne h.symm
  induction d with
  | nil => simp [setKey, lookupVal, h2]
  | cons kv rest ih =>
    obtain ⟨a, b⟩ := kv
    simp only [setKey]
    by_cases ha : a = k2
    · rw [if_pos ha]
      have h3 : ¬ (a = k) := by
        intro h
        exact hne (by rw [← h]; exact ha)
      simp only [lookupVal, if_neg h2, if_neg h3]
    · rw [if_neg ha]
      simp only [lookupVal, ih]

/-- The primary file after a run is the initial content followed by exactly
the appended records, in order. -/
theorem mpuRun_primary (recs : List String) :
    ∀ s : MpuState, (mpuRun s recs).primary = s.primary ++ recs := by
  induction recs with
  | nil => intro s; simp [mpuRun]
  | cons r rs ih =>
    intro s
    rw [mpuRun, ih]
    simp [mpuAppend, mpuAppendStep, mpuBackupStep]

/-- After a nonempty run the backup holds the initial content followed by all
but the last record: the primary as it was when the last backup copy ran. -/
theorem mpuRun_backup :
    ∀ (rs : List String) (r : String) (s : MpuState),
      (mpuRun s (r :: rs)).backup = some (s.primary ++ (r :: rs).dropLast) := by
  intro rs
  induction rs with
  | nil => intro r s; simp [mpuRun, mpuAppend, mpuAppendStep, mpuBackupStep]
  | cons r2 rs2 ih =>
    intro r s
    rw [show mpuRun s (r :: r2 :: rs2) = mpuRun (mpuAppend s r) (r2 :: rs2) from rfl]
    rw [ih r2 (mpuAppend s r)]
    simp [mpuAppend, mpuAppendStep, mpuBackupStep]

/-- Invariant: at every observation point of a run whose starting state has a
backup that is no newer than the primary, the backup stays an initial
segment of the primary. -/
theorem mpuTrace_backup_initSeg :
    ∀ (recs : List String) (s : MpuState),
      (∀ b, s.backup = some b → initSeg b s.primary) →
      ∀ st ∈ mpuRunTrace s recs, ∀ b, st.backup = some b → initSeg b st.primary := by
  intro recs
  induction recs with
  | nil =>
    intro s hs st hst
    simp only [mpuRunTrace, List.mem_singleton] at hst
    subst hst
    exact hs
  | cons r rs ih =>
    intro s hs st hst
    simp only [mpuRunTrace, List.mem_cons] at hst
    rcases hst with h | h | h
    · subst h; exact hs
    · subst h
      intro b hb
      simp only [mpuBackupStep, Option.some.injEq] at hb
      subst hb
      exact ⟨[], List.append_nil _⟩
    · refine ih (mpuAppend s r) ?_ st (by simpa using h)
      intro b hb
      simp only [mpuAppend, mpuAppendStep, mpuBackupStep, Option.some.injEq] at hb
      subst hb
      exact ⟨[r], rfl⟩

/-- When the parsed bounded tail is `n` copies of one record value with
`n` at least the smoothing window, the raw series has `n` points and each
smoothed series has `n + 1 - MOVING_AVG_POINTS`. -/
theorem generateChartSeries_lengths (fileLines : List String) (n : Nat)
    (v : DateTime × DecNum × DecNum)
    (hp : chartParse fileLines = List.replicate n v) (hn : MOVING_AVG_POINTS ≤ n) :
    (generateChartSeries fileLines).raw.length = n ∧
    (generateChartSeries fileLines).tempMA.map List.length = some (n + 1 - MOVING_AVG_POINTS) ∧
    (generateChartSeries fileLines).humMA.map List.length = some (n + 1 - MOVING_AVG_POINTS) := by
  refine ⟨?_, ?_, ?_⟩
  · simp only [generateChartSeries, hp, List.length_replicate]
  · simp only [generateChartSeries, hp, List.map_replicate, List.length_replicate]
    rw [if_pos hn]
    simp only [Option.map_some']
    rw [movingAvg_length MOVING_AVG_POINTS (by decide), List.length_replicate]
  · simp only [generateChartSeries, hp, List.map_replicate, List.length_replicate]
    rw [if_pos hn]
    simp only [Option.map_some']
    rw [movingAvg_length MOVING_AVG_POINTS (by decide), List.length_replicate]

/-! ## Claim C1 -/

set_option maxRecDepth 100000 in
/-- Claim C1: on a log of 200 records, `generate_chart` does NOT return the
last 120 records: the `deque(f, MAX_CHART_POINTS + 1)` tail holds 121 record
lines and the header is no longer among them, so the `"timestamp"` strip does
not fire; the raw series has 121 points and each moving-average series has
117, not the 120 and 116 the claim states. This contradicts the code's own
comment ("Only plot the last 120 data points") attached to
`MAX_CHART_POINTS = 120`. -/
theorem C1_code_eval :
    (generateChartSeries log200).raw.length = 121 ∧
    (generateChartSeries log200).tempMA.map List.length = some 117 ∧
    (generateChartSeries log200).humMA.map List.length = some 117 := by
  have hparse : chartParse log200 = List.replicate 121 sampleVal := by decide
  have h := generateChartSeries_lengths log200 121 sampleVal hparse (by decide)
  exact h

/-! ## Claim C2 -/

/-- Claim C2 as stated is false: during a `write_live_data` update the
visible live-state path is not always either the prior document or the new
merged document — the truncated state produced by `open(path, mode w)` is
also observable. -/
theorem C2_counterexample :
    ¬ (∀ v ∈ writeLiveDataTrace priorC2 pC2,
        v = FileView.doc priorC2 ∨ v = FileView.doc (writeLiveData (some priorC2) pC2)) := by
  intro h
  have hm : FileView.truncated ∈ writeLiveDataTrace priorC2 pC2 := by
    simp [writeLiveDataTrace]
  rcases h FileView.truncated hm with h1 | h1 <;> cases h1

/-- Claim C2 amended: `write_live_data` overwrites the visible path in place
(truncate, then write), so every update exposes a torn intermediate state
that is no document at all; the final visible state is the complete merged
document. Atomic replace via a temporary file is not performed. -/
theorem C2_amended (prior : LiveDoc) (p : DhtPoint) :
    (∃ v ∈ writeLiveDataTrace prior p, ∀ d : LiveDoc, v ≠ FileView.doc d) ∧
    (writeLiveDataTrace prior p).getLast? = some (FileView.doc (writeLiveData (some prior) p)) := by
  constructor
  · refine ⟨FileView.truncated, by simp [writeLiveDataTrace], ?_⟩
    intro d h
    cases h
  · simp [writeLiveDataTrace]

/-! ## Claim C3 -/

/-- Claim C3 as stated is false at a concrete prior document: the store keeps
one shared `"timestamp"` key, and a DHT update overwrites the value another
contributor left there (while non-timestamp foreign fields survive). There is
no per-source last-update timestamp. -/
theorem C3_counterexample :
    lookupVal "timestamp" priorC3 = some (Val.str "08:00:00") ∧
    lookupVal "timestamp" (writeLiveData (some priorC3) pC3) = some (Val.str "10:00:05") ∧
    lookupVal "accel_x" (writeLiveData (some priorC3) pC3) = lookupVal "accel_x" priorC3 := by
  decide

/-- Claim C3 amended: a successful DHT update preserves every field outside
its contributed key set `{timestamp, temp, hum}`; the last-update timestamp
is the single shared `"timestamp"` key that every update overwrites, not a
per-source timestamp. -/
theorem C3_amended (prior : LiveDoc) (p : DhtPoint) (k : String)
    (hk : k ≠ "timestamp" ∧ k ≠ "temp" ∧ k ≠ "hum") :
    lookupVal k (writeLiveData (some prior) p) = lookupVal k prior := by
  obtain ⟨h1, h2, h3⟩ := hk
  show lookupVal k (updateDict prior (dhtFields p)) = lookupVal k prior
  simp only [updateDict, dhtFields, List.foldl]
  rw [lookupVal_setKey_ne h3, lookupVal_setKey_ne h2, lookupVal_setKey_ne h1]

/-- Witness for the amended C3 at a concrete foreign key. -/
theorem C3_witness :
    (("accel_x" : String) ≠ "timestamp" ∧ ("accel_x" : String) ≠ "temp" ∧
      ("accel_x" : String) ≠ "hum") ∧
    lookupVal "accel_x" (writeLiveData (some priorC3) pC3) = lookupVal "accel_x" priorC3 :=
  ⟨by decide, C3_amended priorC3 pC3 "accel_x" (by decide)⟩

/-! ## Claim C4 -/

/-- Claim C4 as stated is false at a concrete schedule: when the append of
the second cycle's record fails, the loop terminates (the exception is caught
outside the `while`), and the third cycle's valid reading is never logged —
the log still holds only the header and the first record. -/
theorem C4_counterexample :
    (mainLoop dhtInit [cGood1, cFail, cGood2]).2 = true ∧
    (mainLoop dhtInit [cGood1, cFail, cGood2]).1.log =
      [dhtHeader, mkDhtRecord ⟨10, 0, 0⟩ 23 45] := by
  constructor
  · decide
  · decide

/-- Claim C4 amended: a failed append of a valid reading raises out of the
sampling loop; the handler outside the `while` catches it (reporting only
when not in flight mode) and the loop ends immediately with the state
unchanged — no later cycle is processed. -/
theorem C4_amended (s : LoopState) (c : CycleInput) (rest : List CycleInput)
    (hv : ∃ hum temp, c.reading = some (hum, temp) ∧ 20 ≤ hum ∧ hum ≤ 90)
    (hfail : c.appendOk = false) :
    mainLoop s (c :: rest) = (s, true) := by
  obtain ⟨hum, temp, hr, h1, h2⟩ := hv
  simp only [mainLoop, runCycle, hr, hfail]
  rw [if_pos ⟨h1, h2⟩]
  simp

/-- Witness for the amended C4 at a concrete failing cycle. -/
theorem C4_witness :
    (∃ hum temp, cFail.reading = some (hum, temp) ∧ 20 ≤ hum ∧ hum ≤ 90) ∧
    cFail.appendOk = false ∧
    mainLoop dhtInit [cFail, cGood2] = (dhtInit, true) :=
  ⟨⟨50, 24, by decide, by norm_num, by norm_num⟩, rfl,
    C4_amended dhtInit cFail [cGood2] ⟨50, 24, by decide, by norm_num, by norm_num⟩ rfl⟩

/-! ## Claim C5 -/

/-- Claim C5: after `N` appends from the freshly ensured state the primary
has exactly `N + 1` lines (header plus records); the backup equals the
primary as it existed before the `N`-th append; at every observation point
the backup is an initial segment of (never newer than) the primary; and an
append only extends the primary, never rewriting existing lines. -/
theorem C5_confirmed (recs : List String) (hne : recs ≠ []) :
    (mpuRun mpuInit recs).primary.length = recs.length + 1 ∧
    (mpuRun mpuInit recs).backup = some ((mpuRun mpuInit recs.dropLast).primary) ∧
    (∀ st ∈ mpuRunTrace mpuInit recs, ∀ b, st.backup = some b → initSeg b st.primary) ∧
    (∀ r, initSeg (mpuRun mpuInit recs).primary (mpuRun mpuInit (recs ++ [r])).primary) := by
  refine ⟨?_, ?_, ?_, ?_⟩
  · rw [mpuRun_primary]
    simp [mpuInit, Nat.add_comm]
  · obtain ⟨r, rs, rfl⟩ := List.exists_cons_of_ne_nil hne
    rw [mpuRun_backup, mpuRun_primary]
  · refine mpuTrace_backup_initSeg recs mpuInit ?_
    intro b hb
    simp [mpuInit] at hb
  · intro r
    rw [mpuRun_primary, mpuRun_primary, ← List.append_assoc]
    exact ⟨[r], rfl⟩

/-- Witness for C5 at a concrete two-record run. -/
theorem C5_witness :
    ((["r1", "r2"] : List String) ≠ []) ∧
    (mpuRun mpuInit ["r1", "r2"]).primary.length = 2 + 1 ∧
    (mpuRun mpuInit ["r1", "r2"]).backup =
      some ((mpuRun mpuInit (["r1", "r2"] : List String).dropLast).primary) :=
  ⟨by decide, (C5_confirmed ["r1", "r2"] (by decide)).1,
    (C5_confirmed ["r1", "r2"] (by decide)).2.1⟩

/-! ## Claim C6 -/

/-- Claim C6 is the intent, but the code breaks it: the logger writes
timestamps as `%H:%M:%S` while the reader parses with
`%Y-%m-%d %H:%M:%S`, so `strptime` fails on every written record, the line
is skipped, and nothing round-trips: parsing the written record yields
`none`, and the plotter's series over a log holding it is empty. -/
theorem C6_code_eval :
    writtenRecC6 = "12:34:56,23.0,45.0" ∧
    parseRecordLine writtenRecC6 = none ∧
    plotterParse [dhtHeader, writtenRecC6] = [] := by
  refine ⟨by decide, by decide, by decide⟩

/-! ## Claim C7 -/

/-- Claim C7: for any temperature and any prior state, humidity exactly 20 or
exactly 90 passes the envelope check — one record is appended and the live
store is updated — while humidity 19.9 (`199/10`) or 90.1 (`901/10`) is
rejected with the state entirely unchanged: no record, no live update. -/
theorem C7_confirmed (s : LoopState) (t : ℚ) (now : HMS) :
    runCycle s ⟨now, some (20, t), true⟩ =
      Except.ok { log := s.log ++ [mkDhtRecord now t 20],
                  live := some (writeLiveData s.live ⟨fmtHMS now, round1 t, round1 20⟩) } ∧
    runCycle s ⟨now, some (90, t), true⟩ =
      Except.ok { log := s.log ++ [mkDhtRecord now t 90],
                  live := some (writeLiveData s.live ⟨fmtHMS now, round1 t, round1 90⟩) } ∧
    runCycle s ⟨now, some (199/10, t), true⟩ = Except.ok s ∧
    runCycle s ⟨now, some (901/10, t), true⟩ = Except.ok s := by
  refine ⟨?_, ?_, ?_, ?_⟩ <;>
    · simp only [runCycle]
      norm_num

/-! ## Claim C8 -/

/-- Claim C8: a generic launch failure of the head unit is recorded in the
attempt trace and the remaining units are still attempted exactly as they
would be on their own (no handle is collected for the failed unit), whereas
a missing interpreter on the head unit aborts: no handle is collected and no
later unit is attempted. -/
theorem C8_confirmed (sp : LaunchSpec) (rest : List LaunchSpec) :
    (sp.outcome = LaunchOutcome.failOther →
      launchAll (sp :: rest) = ((launchAll rest).1, sp.name :: (launchAll rest).2)) ∧
    (sp.outcome = LaunchOutcome.interpreterMissing →
      launchAll (sp :: rest) = ([], [sp.name])) := by
  constructor
  · intro h
    simp [launchAll, h]
  · intro h
    simp [launchAll, h]

/-- Witness for C8: a generic failure on the first unit still attempts the
second; a missing interpreter on the first attempts nothing further. -/
theorem C8_witness :
    specA.outcome = LaunchOutcome.failOther ∧
    specC.outcome = LaunchOutcome.interpreterMissing ∧
    launchAll [specA, specB] = (["MPU Logger"], ["DHT Logger", "MPU Logger"]) ∧
    launchAll [specC, specB] = ([], ["Sound Logger"]) := by
  refine ⟨rfl, rfl, ?_, ?_⟩
  · rw [(C8_confirmed specA [specB]).1 rfl]
    rfl
  · rw [(C8_confirmed specC [specB]).2 rfl]
    rfl

/-! ## Claim C9 -/

/-- Claim C9 is the intent, but the code breaks its tail end: on interrupt
the still-alive handles are gracefully terminated and reported (dead ones
skipped, none force-killed), but the final `DEVNULL.close()` raises
`NameError` — `DEVNULL` is a local of `launch_processes` and is not visible
inside `monitor_processes` — so the sink is not closed and the shutdown does
not complete without raising. -/
theorem C9_code_eval :
    (shutdownRun handlesC9).1 = ["DHT Logger", "Web Server"] ∧
    (shutdownRun handlesC9).2 = some (PyError.nameError "DEVNULL") := by
  decide

/-! ## Claim C10 -/

/-- Claim C10: once a monitored worker is dead (from cycle `t` on), every
later poll cycle `t2 < n` of the monitor re-emits the UnexpectedExit alert
for it: the trace entry for cycle `t2` exists and contains the worker's
name — the handle list is never pruned and alerts are not deduplicated. -/
theorem C10_confirmed (hs : List MonHandle) (h : MonHandle) (t t2 n : Nat)
    (hmem : h ∈ hs) (hdead : h.deadFrom = some t) (hle : t ≤ t2) (hlt : t2 < n) :
    (monitorTrace hs n)[t2]? = some (alertsAt hs t2) ∧ h.name ∈ alertsAt hs t2 := by
  constructor
  · simp [monitorTrace, List.getElem?_map, List.getElem?_range, hlt]
  · refine List.mem_map.mpr ⟨h, List.mem_filter.mpr ⟨hmem, ?_⟩, rfl⟩
    simp [pollDead, hdead]
    exact hle

/-- Witness for C10: the handle that died at cycle 1 is re-alerted at
cycle 3. -/
theorem C10_witness :
    ((⟨"Sound Logger", some 1⟩ : MonHandle) ∈ monHandlesC10) ∧
    (monitorTrace monHandlesC10 5)[3]? = some (alertsAt monHandlesC10 3) ∧
    "Sound Logger" ∈ alertsAt monHandlesC10 3 :=
  ⟨by decide,
    (C10_confirmed monHandlesC10 ⟨"Sound Logger", some 1⟩ 1 3 5 (by decide) rfl (by decide)
      (by decide)).1,
    (C10_confirmed monHandlesC10 ⟨"Sound Logger", some 1⟩ 1 3 5 (by decide) rfl (by decide)
      (by decide)).2⟩

end Kabot
